import Mathlib

/-!
# WebChatMessaging.js

A shallow embedding of the browser script `WebChatMessaging.js`: the module
variable `username`, the functions `sendMessage`, `fetchMessages`, `login`, the
`chatForm` submit handler and the `beforeunload` handler.

The script talks to two collaborators it does not implement, the DOM and the
network.  Both are modelled by explicit state:

* the properties `value` and `style.display` are plain mutable fields holding
  the last value written;
* the message container `chatMessages` is taken to be a flow container such
  as a `div`.  An assignment to its `innerHTML` is parsed by the browser and a
  read gives the serialisation of its children, so what is read differs from
  what was written; the parser is given for the markup the script itself
  produces from messages without tags (a sequence of `div` elements holding
  text), and the content is left undetermined (`none`) on other markup;
* `scrollHeight` is computed by the browser from the rendered content, given
  by a layout function and the client height, and `scrollTop` is kept by the
  browser within the largest scroll offset; lengths are whole pixels and
  scrolling is instant;
* `fetch`, `navigator.sendBeacon`, `alert` and `setInterval` append to logs;
* the continuation of a promise chain is a function of the outcome the
  environment delivers for the request;
* time is a fake clock counting milliseconds; an interval timer fires each
  time the clock reaches a multiple of its period after its registration.
-/

namespace WebChatMessaging

/-! ## JavaScript values -/

/-- Parsed JSON values, as `response.json()` resolves to.  Numbers are carried
as integers (the integral values a JSON number can take exactly). -/
inductive JSValue where
  | null
  | bool (b : Bool)
  | num (n : Int)
  | str (s : String)
  | arr (items : List JSValue)
  | obj (fields : List (String × JSValue))

/-- Exceptions thrown while a callback runs. -/
inductive JSError where
  | typeError
  deriving DecidableEq, Repr

/-- JavaScript `ToBoolean` on the result of a property read (`none` is
`undefined`). -/
def truthy : Option JSValue → Bool
  | none => false
  | some .null => false
  | some (.bool b) => b
  | some (.num n) => n != 0
  | some (.str s) => s != ""
  | some (.arr _) => true
  | some (.obj _) => true

/-- The property read `data.valid`: throws on `null`, looks the key up in an
object, and is `undefined` on every other parsed JSON value. -/
def getValid : JSValue → Except JSError (Option JSValue)
  | .null => .error .typeError
  | .obj fields => .ok (fields.lookup "valid")
  | _ => .ok none

/-- What evaluating a template literal `${msg}` comes to. -/
inductive Rendered where
  /-- The evaluation gives this text. -/
  | text (s : String)
  /-- The evaluation throws. -/
  | throws (e : JSError)
  /-- The evaluation gives a text that is not determined here. -/
  | unmodelled

/-- Concatenation of two pieces evaluated one after the other. -/
def Rendered.append : Rendered → Rendered → Rendered
  | .throws e, _ => .throws e
  | _, .throws e => .throws e
  | .unmodelled, _ => .unmodelled
  | _, .unmodelled => .unmodelled
  | .text a, .text b => .text (a ++ b)

/-- `Number::toString` on an integer a double holds exactly and prints in
full; the text of larger integers is not determined here. -/
def numberText (n : Int) : Rendered :=
  if n.natAbs < 9007199254740992 then .text (toString n) else .unmodelled

/-- `ToString` of a parsed object: `Object.prototype.toString` gives
`[object Object]`, unless the object has a key `toString` of its own, which
is not callable and makes `ToPrimitive` throw. -/
def objectText (fields : List (String × JSValue)) : Rendered :=
  if fields.any (fun kv => kv.1 == "toString") then .throws .typeError
  else .text "[object Object]"

mutual
/-- JavaScript `ToString`, as applied by a template literal. -/
def JSValue.toStr : JSValue → Rendered
  | .null => .text "null"
  | .bool true => .text "true"
  | .bool false => .text "false"
  | .num n => numberText n
  | .str s => .text s
  | .arr items => joinItems items
  | .obj fields => objectText fields
/-- The text of `Array.prototype.join` with a comma: `null` elements are empty. -/
def joinItems : List JSValue → Rendered
  | [] => .text ""
  | [x] => itemStr x
  | x :: y :: rest => (itemStr x).append ((Rendered.text ",").append (joinItems (y :: rest)))
/-- One element of a joined array. -/
def itemStr : JSValue → Rendered
  | .null => .text ""
  | .bool true => .text "true"
  | .bool false => .text "false"
  | .num n => numberText n
  | .str s => .text s
  | .arr items => joinItems items
  | .obj fields => objectText fields
end

/-! ## `JSON.stringify` on records of strings -/

/-- Lower-case hexadecimal digit. -/
def hexDigit (n : Nat) : Char :=
  if n < 10 then Char.ofNat (48 + n) else Char.ofNat (87 + n)

/-- The escape of one character in `QuoteJSONString`. -/
def escapeChar (c : Char) : List Char :=
  if c.toNat = 8 then [Char.ofNat 92, 'b']
  else if c.toNat = 9 then [Char.ofNat 92, 't']
  else if c.toNat = 10 then [Char.ofNat 92, 'n']
  else if c.toNat = 12 then [Char.ofNat 92, 'f']
  else if c.toNat = 13 then [Char.ofNat 92, 'r']
  else if c.toNat = 34 then [Char.ofNat 92, Char.ofNat 34]
  else if c.toNat = 92 then [Char.ofNat 92, Char.ofNat 92]
  else if c.toNat < 32 then
    [Char.ofNat 92, 'u', '0', '0', hexDigit (c.toNat / 16), hexDigit (c.toNat % 16)]
  else [c]

/-- `QuoteJSONString`: the JSON text of a string.  Strings here are sequences
of Unicode scalar values, so the escape of a lone surrogate never applies. -/
def quoteJSONString (s : String) : String :=
  String.mk (Char.ofNat 34 :: (s.data.flatMap escapeChar ++ [Char.ofNat 34]))

/-- The members of a serialised object, comma separated. -/
def stringifyMembers : List (String × String) → String
  | [] => ""
  | [(k, v)] => quoteJSONString k ++ ":" ++ quoteJSONString v
  | (k, v) :: m :: rest =>
      quoteJSONString k ++ ":" ++ quoteJSONString v ++ "," ++ stringifyMembers (m :: rest)

/-- `JSON.stringify` applied to an object literal whose property values are
strings, the properties in the order they are written. -/
def stringify (members : List (String × String)) : String :=
  "\x7b" ++ stringifyMembers members ++ "\x7d"

/-! ## HTML fragments: `div` elements holding text -/

/-- The escape of one character of a text node in the HTML fragment
serialisation. -/
def escapeHtmlChar (c : Char) : List Char :=
  if c = '&' then ['&', 'a', 'm', 'p', ';']
  else if c = Char.ofNat 160 then ['&', 'n', 'b', 's', 'p', ';']
  else if c = '<' then ['&', 'l', 't', ';']
  else if c = '>' then ['&', 'g', 't', ';']
  else [c]

/-- The serialisation of a text node. -/
def escapeHtml (s : String) : String :=
  String.mk (s.data.flatMap escapeHtmlChar)

/-- The serialisation of a list of `div` elements, each holding one text. -/
def serialiseDivs : List (List Char) → List Char
  | [] => []
  | t :: ts =>
      ['<', 'd', 'i', 'v', '>'] ++ t.flatMap escapeHtmlChar ++ ['<', '/', 'd', 'i', 'v', '>']
        ++ serialiseDivs ts

/-- Puts a character in front of the text of the `div` being read. -/
def pushChar (c : Char) : Option (List (List Char)) → Option (List (List Char))
  | some (t :: ts) => some ((c :: t) :: ts)
  | _ => none

/-- Whether an ampersand followed by `rest` is a literal ampersand: what
follows starts neither a named nor a numeric character reference. -/
def ampLiteral : List Char → Bool
  | [] => true
  | d :: _ => !(d.isAlphanum || d == Char.ofNat 35)

/-- The HTML fragment parser on a sequence of `div` elements holding text: the
texts of the elements, or `none` on any other markup.  The first argument
tells whether a `div` is open, the second how many characters of a tag or
character reference already recognised remain to be passed over.  In a text
the references `&amp;`, `&lt;`, `&gt;` and `&nbsp;` are decoded, an ampersand
that starts no reference stands for itself, and U+0000, a carriage return,
another reference or another tag are not covered. -/
def parseFrom : Bool → Nat → List Char → Option (List (List Char))
  | inside, _, [] => if inside then none else some []
  | inside, k + 1, _ :: rest => parseFrom inside k rest
  | false, 0, c :: rest =>
      if c = '<' ∧ List.isPrefixOf ['d', 'i', 'v', '>'] rest then parseFrom true 4 rest
      else none
  | true, 0, c :: rest =>
      if c = '<' then
        if List.isPrefixOf ['/', 'd', 'i', 'v', '>'] rest then
          (parseFrom false 5 rest).map fun ts => [] :: ts
        else none
      else if c = '&' then
        if List.isPrefixOf ['a', 'm', 'p', ';'] rest then pushChar '&' (parseFrom true 4 rest)
        else if List.isPrefixOf ['l', 't', ';'] rest then pushChar '<' (parseFrom true 3 rest)
        else if List.isPrefixOf ['g', 't', ';'] rest then pushChar '>' (parseFrom true 3 rest)
        else if List.isPrefixOf ['n', 'b', 's', 'p', ';'] rest then
          pushChar (Char.ofNat 160) (parseFrom true 5 rest)
        else if ampLiteral rest then pushChar '&' (parseFrom true 0 rest)
        else none
      else if c = Char.ofNat 0 ∨ c = Char.ofNat 13 then none
      else pushChar c (parseFrom true 0 rest)

/-- What a read of `innerHTML` gives after `markup` was assigned to it: the
serialisation of the parsed children. -/
def reserialise (markup : String) : Option String :=
  (parseFrom false 0 markup.data).map fun ts => String.mk (serialiseDivs ts)

/-! ## Browser state -/

/-- The properties of the page elements the script reads or writes. -/
structure Dom where
  /-- The field `username`, property `value`. -/
  usernameValue : String
  /-- The field `password`, property `value`. -/
  passwordValue : String
  /-- The field `message`, property `value`. -/
  messageValue : String
  /-- The element `loginOverlay`, property `style.display`. -/
  loginOverlayDisplay : String
  /-- The element `chatSection`, property `style.display`. -/
  chatSectionDisplay : String
  /-- The element `chatMessages`, what a read of `innerHTML` gives; `none`
  when the content is not determined here. -/
  chatMessagesInnerHTML : Option String
  /-- The element `chatMessages`, what a read of `scrollTop` gives; `none`
  when it is not determined here. -/
  chatMessagesScrollTop : Option Nat
  /-- The element `chatMessages`, property `clientHeight`. -/
  chatMessagesClientHeight : Nat
  /-- Whether the element `chatMessages` is a scroll container. -/
  chatMessagesScrollable : Bool
  deriving DecidableEq, Repr

/-- The property `chatMessages.scrollHeight`: the height `layout` gives the
content, and at least the client height. -/
def Dom.chatMessagesScrollHeight (layout : String → Nat) (d : Dom) : Option Nat :=
  d.chatMessagesInnerHTML.map fun markup => max (layout markup) d.chatMessagesClientHeight

/-- The largest scroll offset of `chatMessages`: `scrollHeight - clientHeight`
in a scroll container, zero otherwise. -/
def Dom.chatMessagesMaxScrollTop (layout : String → Nat) (d : Dom) : Option Nat :=
  (d.chatMessagesScrollHeight layout).map fun h =>
    if d.chatMessagesScrollable then h - d.chatMessagesClientHeight else 0

/-- The browser keeps `scrollTop` within the largest scroll offset. -/
def Dom.clampScrollTop (layout : String → Nat) (d : Dom) : Dom :=
  { d with
    chatMessagesScrollTop :=
      d.chatMessagesScrollTop.bind fun x =>
        (d.chatMessagesMaxScrollTop layout).map fun m => min x m }

/-- An assignment to `chatMessages.innerHTML` (`none`: of a text not
determined here). -/
def Dom.setChatMessagesInnerHTML (layout : String → Nat) (markup : Option String) (d : Dom) :
    Dom :=
  Dom.clampScrollTop layout { d with chatMessagesInnerHTML := markup.bind reserialise }

/-- An assignment to `chatMessages.scrollTop`. -/
def Dom.setChatMessagesScrollTop (layout : String → Nat) (v : Option Nat) (d : Dom) : Dom :=
  { d with
    chatMessagesScrollTop :=
      v.bind fun x => (d.chatMessagesMaxScrollTop layout).map fun m => min x m }

/-- A request handed to `fetch`, with the time of the call. -/
structure Request where
  method : String
  url : String
  headers : List (String × String)
  body : Option String
  time : Nat
  deriving DecidableEq, Repr

/-- A call of `navigator.sendBeacon`. -/
structure Beacon where
  url : String
  data : String
  deriving DecidableEq, Repr

/-- The functions of the script that are handed to a timer. -/
inductive Callback where
  | fetchMessages
  deriving DecidableEq, Repr

/-- An interval timer made by `setInterval`, with the time of its registration
and its period in milliseconds. -/
structure Timer where
  callback : Callback
  period : Nat
  start : Nat
  deriving DecidableEq, Repr

/-- The state of the page: the module variable, the DOM, and what the script
has asked of the browser so far. -/
structure State where
  /-- The module variable `username`. -/
  username : String
  dom : Dom
  /-- Calls of `fetch`, oldest first. -/
  requests : List Request
  /-- Calls of `navigator.sendBeacon`, oldest first. -/
  beacons : List Beacon
  /-- Calls of `alert`, oldest first. -/
  alerts : List String
  /-- Timers made by `setInterval`, oldest first. -/
  timers : List Timer
  /-- Login requests whose promise chain has not settled. -/
  pendingLogins : Nat
  /-- Message fetches whose promise chain has not settled. -/
  pendingFetches : Nat
  /-- The fake clock, in milliseconds. -/
  now : Nat
  deriving DecidableEq, Repr

/-- How a `fetch(...).then(response => response.json())` chain settles. -/
inductive FetchOutcome where
  /-- The request promise rejects: network or transport failure. -/
  | rejected
  /-- A response arrived but `response.json()` rejects. -/
  | unparsable
  /-- The body parsed to `data`. -/
  | body (data : JSValue)

/-- The page right after the script has run: `let username = ""`, nothing
requested yet.  The inline `display` of the two sections is not set. -/
def pageLoad : State :=
  { username := ""
    dom :=
      { usernameValue := ""
        passwordValue := ""
        messageValue := ""
        loginOverlayDisplay := ""
        chatSectionDisplay := ""
        chatMessagesInnerHTML := some ""
        chatMessagesScrollTop := some 0
        chatMessagesClientHeight := 0
        chatMessagesScrollable := true }
    requests := []
    beacons := []
    alerts := []
    timers := []
    pendingLogins := 0
    pendingFetches := 0
    now := 0 }

/-! ## The script -/

/-- The call `alert(text)`. -/
def alert (text : String) (s : State) : State :=
  { s with alerts := s.alerts ++ [text] }

/-- Source `sendMessage(message)`: one POST, whose result is dropped. -/
def sendMessage (message : String) (s : State) : State :=
  { s with
    requests := s.requests ++
      [{ method := "POST"
         url := "/api/webchat/messages"
         headers := [("Content-Type", "application/json")]
         body := some (stringify [("user", s.username), ("message", message)])
         time := s.now }] }

/-- Source `fetchMessages()`, the synchronous part: the GET is issued and the
promise chain is left pending. -/
def fetchMessages (s : State) : State :=
  { s with
    requests := s.requests ++
      [{ method := "GET"
         url := "/api/webchat/messages"
         headers := []
         body := none
         time := s.now }]
    pendingFetches := s.pendingFetches + 1 }

/-- The body of the `forEach` callback in `fetchMessages`: `innerHTML` is
read, the template literal is evaluated, which may throw, and the
concatenation is assigned to `innerHTML`. -/
def appendMessage (layout : String → Nat) (d : Dom) (msg : JSValue) : Except JSError Dom :=
  match msg.toStr with
  | .throws e => .error e
  | .unmodelled => .ok (d.setChatMessagesInnerHTML layout none)
  | .text t =>
      .ok (d.setChatMessagesInnerHTML layout
        (d.chatMessagesInnerHTML.map fun old => old ++ ("<div>" ++ t ++ "</div>")))

/-- The call `data.forEach(msg => ...)` on an array: the page it leaves and
the exception that ended it, if any. -/
def forEachMessage (layout : String → Nat) : List JSValue → Dom → Dom × Option JSError
  | [], d => (d, none)
  | msg :: rest, d =>
      match appendMessage layout d msg with
      | .ok d1 => forEachMessage layout rest d1
      | .error e => (d, some e)

/-- The callback `data => ...` of `fetchMessages`: the state it leaves and the
exception it throws, if any.  The container is emptied first; `data.forEach`
then throws unless `data` is an array; `scrollTop` is assigned last. -/
def fetchMessagesThen (layout : String → Nat) (data : JSValue) (s : State) :
    State × Option JSError :=
  let cleared : Dom := s.dom.setChatMessagesInnerHTML layout (some "")
  match data with
  | .arr items =>
      match forEachMessage layout items cleared with
      | (filled, none) =>
          ({ s with
             dom := filled.setChatMessagesScrollTop layout (filled.chatMessagesScrollHeight layout) },
           none)
      | (partly, some e) => ({ s with dom := partly }, some e)
  | _ => ({ s with dom := cleared }, some .typeError)

/-- How the promise chain of `fetchMessages` settles.  It has no `catch`: a
rejection or an exception leaves the state as it is at that point. -/
def fetchMessagesSettle (layout : String → Nat) (o : FetchOutcome) (s : State) : State :=
  match o with
  | .rejected => s
  | .unparsable => s
  | .body data => (fetchMessagesThen layout data s).1

/-- The call `setInterval(callback, period)`. -/
def setInterval (callback : Callback) (period : Nat) (s : State) : State :=
  { s with timers := s.timers ++ [{ callback := callback, period := period, start := s.now }] }

/-- Source `window.login`, the synchronous part: `username` is assigned from
the field and the POST is issued. -/
def login (s : State) : State :=
  let s1 : State := { s with username := s.dom.usernameValue }
  let password := s1.dom.passwordValue
  { s1 with
    requests := s1.requests ++
      [{ method := "POST"
         url := "/api/webchat/login"
         headers := [("Content-Type", "application/json")]
         body := some (stringify [("username", s1.username), ("password", password)])
         time := s1.now }]
    pendingLogins := s1.pendingLogins + 1 }

/-- The branch of `login` taken when `data.valid` is truthy. -/
def loginSuccess (s : State) : State :=
  let s1 : State := { s with dom := { s.dom with loginOverlayDisplay := "none" } }
  let s2 : State := { s1 with dom := { s1.dom with chatSectionDisplay := "block" } }
  fetchMessages (setInterval .fetchMessages 1000 s2)

/-- The callback `data => ...` of `login`. -/
def loginThen (data : JSValue) (s : State) : Except JSError State :=
  match getValid data with
  | .error e => .error e
  | .ok valid =>
      if truthy valid then .ok (loginSuccess s)
      else .ok (alert "Invalid username or password. Please try again." s)

/-- The callback of `.catch` in `login`. -/
def loginCatch (s : State) : State :=
  alert "Error connecting to server." s

/-- How the promise chain of `login` settles: a rejection of the request, of
`response.json()` or an exception in the callback all reach the `catch`. -/
def loginSettle (o : FetchOutcome) (s : State) : State :=
  match o with
  | .rejected => loginCatch s
  | .unparsable => loginCatch s
  | .body data =>
      match loginThen data s with
      | .ok s1 => s1
      | .error _ => loginCatch s

/-- The event object of a form submission. -/
structure SubmitEvent where
  defaultPrevented : Bool
  deriving DecidableEq, Repr

/-- The `submit` listener of `chatForm`. -/
def chatFormSubmit (e : SubmitEvent) (s : State) : SubmitEvent × State :=
  let e1 : SubmitEvent := { e with defaultPrevented := true }
  let message := s.dom.messageValue
  if message != "" then
    let s1 := sendMessage message s
    (e1, { s1 with dom := { s1.dom with messageValue := "" } })
  else (e1, s)

/-- The `beforeunload` listener of `window`. -/
def beforeunload (s : State) : State :=
  if s.username != "" then
    { s with
      beacons := s.beacons ++
        [{ url := "/api/webchat/logout", data := stringify [("username", s.username)] }] }
  else s

/-! ## The event loop -/

/-- Runs a timer callback. -/
def Callback.run : Callback → State → State
  | .fetchMessages, s => WebChatMessaging.fetchMessages s

/-- Whether an interval timer is due at time `t`. -/
def Timer.due (tm : Timer) (t : Nat) : Bool :=
  decide (tm.start < t) && ((t - tm.start) % tm.period == 0)

/-- Runs the callbacks of the timers of `tms` that are due now, oldest first. -/
def fireTimers (tms : List Timer) (s : State) : State :=
  tms.foldl (fun acc tm => if tm.due acc.now then tm.callback.run acc else acc) s

/-- The fake clock advances by one millisecond. -/
def tick (s : State) : State :=
  let s1 : State := { s with now := s.now + 1 }
  fireTimers s1.timers s1

/-- What can happen to the page. -/
inductive Event where
  /-- The user edits the `username` field. -/
  | typeUsername (v : String)
  /-- The user edits the `password` field. -/
  | typePassword (v : String)
  /-- The user edits the `message` field. -/
  | typeMessage (v : String)
  /-- The markup calls `login()`. -/
  | loginCall
  /-- A pending login chain settles. -/
  | loginResponse (o : FetchOutcome)
  /-- The chat form is submitted. -/
  | submit
  /-- A pending message fetch settles. -/
  | fetchResponse (o : FetchOutcome)
  /-- The event `beforeunload` fires. -/
  | unload
  /-- One millisecond passes. -/
  | tick
  /-- The browser lays the message container out anew, with this client
  height and as a scroll container or not. -/
  | relayout (clientHeight : Nat) (scrollable : Bool)

/-- One turn of the event loop. -/
def step (layout : String → Nat) (s : State) : Event → State
  | .typeUsername v => { s with dom := { s.dom with usernameValue := v } }
  | .typePassword v => { s with dom := { s.dom with passwordValue := v } }
  | .typeMessage v => { s with dom := { s.dom with messageValue := v } }
  | .loginCall => login s
  | .loginResponse o =>
      if s.pendingLogins = 0 then s
      else loginSettle o { s with pendingLogins := s.pendingLogins - 1 }
  | .submit => (chatFormSubmit { defaultPrevented := false } s).2
  | .fetchResponse o =>
      if s.pendingFetches = 0 then s
      else fetchMessagesSettle layout o { s with pendingFetches := s.pendingFetches - 1 }
  | .unload => beforeunload s
  | .tick => tick s
  | .relayout h sc =>
      { s with
        dom := Dom.clampScrollTop layout
          { s.dom with chatMessagesClientHeight := h, chatMessagesScrollable := sc } }

/-- The state after a sequence of events. -/
def run (layout : String → Nat) (s : State) (evs : List Event) : State :=
  evs.foldl (step layout) s

/-! ## Vocabulary of the properties -/

/-- Whether a request is a message fetch: a GET of `/api/webchat/messages`. -/
def isMessageFetch (r : Request) : Bool :=
  r.method == "GET" && r.url == "/api/webchat/messages"

/-- The times of the message fetches issued between state `s0` and the later
state `s`. -/
def fetchTimesSince (s0 s : State) : List Nat :=
  ((s.requests.drop s0.requests.length).filter isMessageFetch).map Request.time

/-- The login request issued by `login` in state `s`. -/
def loginRequest (s : State) : Request :=
  { method := "POST"
    url := "/api/webchat/login"
    headers := [("Content-Type", "application/json")]
    body := some (stringify [("username", s.dom.usernameValue), ("password", s.dom.passwordValue)])
    time := s.now }

/-- The state `s` with the two login fields filled in. -/
def withCredentials (u p : String) (s : State) : State :=
  { s with dom := { s.dom with usernameValue := u, passwordValue := p } }

/-- The success path of `login` as the specification words it, between the
state `s` in which the response is handled and the state `s1` after it: the
overlay is hidden, the chat section is shown and polling is started. -/
def SuccessPath (s s1 : State) : Prop :=
  s1.dom.loginOverlayDisplay = "none" ∧
    s1.dom.chatSectionDisplay = "block" ∧
    s1.timers = s.timers ++ [{ callback := .fetchMessages, period := 1000, start := s.now }]

/-- Whether `login()` is the event. -/
def Event.isLoginCall : Event → Bool
  | .loginCall => true
  | _ => false

/-- Whether a login chain settling with this outcome takes the truthy branch. -/
def FetchOutcome.loginValid : FetchOutcome → Bool
  | .body data =>
      match getValid data with
      | .ok valid => truthy valid
      | .error _ => false
  | _ => false

/-- Whether the event is a login chain settling on the truthy branch. -/
def Event.isLoginSuccess : Event → Bool
  | .loginResponse o => o.loginValid
  | _ => false

/-- Whether the characters of a message are read by the HTML parser as one
text, unchanged: no `<`, no U+0000, no carriage return, and no ampersand that
starts a character reference. -/
def textOk : List Char → Bool
  | [] => true
  | c :: rest =>
      c != '<' && c != Char.ofNat 0 && c != Char.ofNat 13 && (c != '&' || ampLiteral rest)
        && textOk rest

/-- A text with neither U+0000 nor a carriage return. -/
def noCtl (t : List Char) : Prop :=
  ∀ c ∈ t, c ≠ Char.ofNat 0 ∧ c ≠ Char.ofNat 13

/-- Whether a message has none of the characters that HTML parsing or
serialisation changes: `&`, `<`, `>`, U+00A0, U+0000 and carriage return. -/
def plainText (m : String) : Bool :=
  m.data.all fun c =>
    c != '&' && c != '<' && c != '>' && c != Char.ofNat 160 && c != Char.ofNat 0
      && c != Char.ofNat 13

/-- The timer `setInterval(fetchMessages, 1000)` makes at time `t`. -/
def pollTimer (t : Nat) : Timer :=
  { callback := .fetchMessages, period := 1000, start := t }

/-- The times `t`, `t + 1000`, `t + 2000`, ... up to `now`: the cadence the
specification asks of the message fetches after a login handled at `t`. -/
def cadence (t now : Nat) : List Nat :=
  (List.range ((now - t) / 1000 + 1)).map fun k => t + 1000 * k

/-- How many of the times `l` lie in the window from `lo` to `hi`. -/
def countIn (lo hi : Nat) (l : List Nat) : Nat :=
  (l.filter fun x => decide (lo ≤ x ∧ x ≤ hi)).length

/-- The polling invariant after a login handled at time `t` in a state whose
requests were `base`: the one timer is armed and the message fetches issued
since are exactly those of the cadence. -/
def Polling (t : Nat) (base : List Request) (s : State) : Prop :=
  s.timers = [pollTimer t] ∧ t ≤ s.now ∧
    ∃ extra, s.requests = base ++ extra ∧
      (extra.filter isMessageFetch).map Request.time = cadence t s.now

/-! ## Properties -/

/-! ### JSON text -/

/-- A character that `QuoteJSONString` copies unchanged stays itself. -/
theorem escapeChar_plain (c : Char) (h : 32 ≤ c.toNat ∧ c.toNat ≠ 34 ∧ c.toNat ≠ 92) :
    escapeChar c = [c] := by
  obtain ⟨h1, h2, h3⟩ := h
  have e1 : c.toNat ≠ 8 := by omega
  have e2 : c.toNat ≠ 9 := by omega
  have e3 : c.toNat ≠ 10 := by omega
  have e4 : c.toNat ≠ 12 := by omega
  have e5 : c.toNat ≠ 13 := by omega
  have e6 : ¬ c.toNat < 32 := by omega
  simp [escapeChar, e1, e2, e3, e4, e5, e6, h2, h3]

/-- A string without control characters, quotes and backslashes is serialised
as itself between quotes. -/
theorem quoteJSONString_plain (s : String)
    (h : ∀ c ∈ s.data, 32 ≤ c.toNat ∧ c.toNat ≠ 34 ∧ c.toNat ≠ 92) :
    quoteJSONString s = "\"" ++ s ++ "\"" := by
  have key : ∀ l : List Char, (∀ c ∈ l, 32 ≤ c.toNat ∧ c.toNat ≠ 34 ∧ c.toNat ≠ 92) →
      l.flatMap escapeChar = l := by
    intro l
    induction l with
    | nil => intro _; rfl
    | cons c l ih =>
      intro hl
      rw [List.flatMap_cons, escapeChar_plain c (hl c (List.mem_cons_self _ _)),
        ih (fun x hx => hl x (List.mem_cons_of_mem _ hx))]
      rfl
  apply String.ext
  simp only [quoteJSONString, key s.data h, String.data_append]
  rfl

/-! ### HTML fragments -/

/-- Putting a character in front commutes with opening a text. -/
theorem pushChar_map (c : Char) (t : List Char) (o : Option (List (List Char))) :
    pushChar c (o.map fun ts => t :: ts) = o.map fun ts => (c :: t) :: ts := by
  cases o <;> rfl

/-- The end tag closes the open `div`. -/
theorem parseFrom_close (rest : List Char) :
    parseFrom true 0 ('<' :: '/' :: 'd' :: 'i' :: 'v' :: '>' :: rest)
      = (parseFrom false 0 rest).map fun ts => [] :: ts := by
  simp [parseFrom]

/-- The start tag opens a `div`. -/
theorem parseFrom_open (rest : List Char) :
    parseFrom false 0 ('<' :: 'd' :: 'i' :: 'v' :: '>' :: rest) = parseFrom true 0 rest := by
  simp [parseFrom]

/-- The parser reads an escaped text back. -/
theorem parseFrom_escaped (rest : List Char) :
    ∀ t : List Char, noCtl t →
      parseFrom true 0
          (t.flatMap escapeHtmlChar ++ ('<' :: '/' :: 'd' :: 'i' :: 'v' :: '>' :: rest))
        = (parseFrom false 0 rest).map fun ts => t :: ts := by
  intro t
  induction t with
  | nil => intro _; exact parseFrom_close rest
  | cons c t ih =>
    intro h
    have hc := h c (List.mem_cons_self _ _)
    have ih1 := ih (fun x hx => h x (List.mem_cons_of_mem _ hx))
    rw [List.flatMap_cons]
    by_cases h1 : c = '&'
    · subst h1
      simp [escapeHtmlChar, parseFrom, ih1, pushChar_map]
    · by_cases h2 : c = Char.ofNat 160
      · subst h2
        simp [escapeHtmlChar, parseFrom, ih1, pushChar_map]
      · by_cases h3 : c = '<'
        · subst h3
          simp [escapeHtmlChar, parseFrom, ih1, pushChar_map]
        · by_cases h4 : c = '>'
          · subst h4
            simp [escapeHtmlChar, parseFrom, ih1, pushChar_map]
          · simp [escapeHtmlChar, parseFrom, ih1, pushChar_map, h1, h2, h3, h4, hc.1, hc.2]

/-- A character that is no letter or digit differs from every letter. -/
theorem not_alnum_ne {d c : Char} (hd : d.isAlphanum = false) (hc : c.isAlphanum = true) :
    c ≠ d := by
  intro h
  subst h
  rw [hd] at hc
  exact Bool.noConfusion hc

/-- A list is no prefix of one that starts differently. -/
theorem isPrefixOf_head_ne {a b : Char} (as bs : List Char) (h : a ≠ b) :
    List.isPrefixOf (a :: as) (b :: bs) = false := by
  simp [List.isPrefixOf, h]

/-- A literal ampersand is followed by none of the character references the
parser decodes. -/
theorem ampLiteral_append (m tail : List Char) (h : ampLiteral m = true) :
    ampLiteral (m ++ ('<' :: tail)) = true ∧
      List.isPrefixOf ['a', 'm', 'p', ';'] (m ++ ('<' :: tail)) = false ∧
      List.isPrefixOf ['l', 't', ';'] (m ++ ('<' :: tail)) = false ∧
      List.isPrefixOf ['g', 't', ';'] (m ++ ('<' :: tail)) = false ∧
      List.isPrefixOf ['n', 'b', 's', 'p', ';'] (m ++ ('<' :: tail)) = false := by
  cases m with
  | nil =>
    exact ⟨rfl, isPrefixOf_head_ne _ _ (by decide), isPrefixOf_head_ne _ _ (by decide),
      isPrefixOf_head_ne _ _ (by decide), isPrefixOf_head_ne _ _ (by decide)⟩
  | cons d m =>
    simp only [ampLiteral, Bool.not_eq_true', Bool.or_eq_false_iff] at h
    have ha : ('a' : Char) ≠ d := not_alnum_ne h.1 (by decide)
    have hl : ('l' : Char) ≠ d := not_alnum_ne h.1 (by decide)
    have hg : ('g' : Char) ≠ d := not_alnum_ne h.1 (by decide)
    have hn : ('n' : Char) ≠ d := not_alnum_ne h.1 (by decide)
    refine ⟨by simp [ampLiteral, h.1, h.2], isPrefixOf_head_ne _ _ ha, isPrefixOf_head_ne _ _ hl,
      isPrefixOf_head_ne _ _ hg, isPrefixOf_head_ne _ _ hn⟩

/-- The parser reads a message without markup as one text, unchanged. -/
theorem parseFrom_text (rest : List Char) :
    ∀ m : List Char, textOk m = true →
      parseFrom true 0 (m ++ ('<' :: '/' :: 'd' :: 'i' :: 'v' :: '>' :: rest))
        = (parseFrom false 0 rest).map fun ts => m :: ts := by
  intro m
  induction m with
  | nil => intro _; exact parseFrom_close rest
  | cons c m ih =>
    intro h
    simp only [textOk, Bool.and_eq_true, bne_iff_ne, ne_eq, Bool.or_eq_true] at h
    obtain ⟨⟨⟨⟨h1, h2⟩, h3⟩, h4⟩, h5⟩ := h
    have ih1 := ih h5
    by_cases hamp : c = '&'
    · subst hamp
      have hl : ampLiteral m = true := by
        rcases h4 with h4 | h4
        · exact absurd rfl h4
        · exact h4
      obtain ⟨a1, a2, a3, a4, a5⟩ := ampLiteral_append m ('/' :: 'd' :: 'i' :: 'v' :: '>' :: rest) hl
      simp only [List.cons_append, parseFrom]
      simp [a1, a2, a3, a4, a5, ih1, pushChar_map]
    · simp only [List.cons_append, parseFrom]
      simp [h1, h2, h3, hamp, ih1, pushChar_map]

/-- A message read as one text has no U+0000 and no carriage return. -/
theorem textOk_noCtl (m : List Char) (h : textOk m = true) : noCtl m := by
  induction m with
  | nil => intro c hc; cases hc
  | cons d m ih =>
    simp only [textOk, Bool.and_eq_true, bne_iff_ne, ne_eq, Bool.or_eq_true] at h
    obtain ⟨⟨⟨⟨_, h2⟩, h3⟩, _⟩, h5⟩ := h
    intro c hc
    rcases List.mem_cons.mp hc with hc | hc
    · subst hc; exact ⟨h2, h3⟩
    · exact ih h5 c hc

/-- The parser reads serialised `div` elements back, whatever follows. -/
theorem parseFrom_serialised (tail : List Char) :
    ∀ ts : List (List Char), (∀ t ∈ ts, noCtl t) →
      parseFrom false 0 (serialiseDivs ts ++ tail)
        = (parseFrom false 0 tail).map fun us => ts ++ us := by
  intro ts
  induction ts with
  | nil => intro _; simp [serialiseDivs]
  | cons t ts ih =>
    intro h
    have ih1 := ih (fun x hx => h x (List.mem_cons_of_mem _ hx))
    have ht := h t (List.mem_cons_self _ _)
    have e : serialiseDivs (t :: ts) ++ tail
        = '<' :: 'd' :: 'i' :: 'v' :: '>' ::
            (t.flatMap escapeHtmlChar ++
              ('<' :: '/' :: 'd' :: 'i' :: 'v' :: '>' :: (serialiseDivs ts ++ tail))) := by
      simp [serialiseDivs]
    rw [e, parseFrom_open, parseFrom_escaped _ t ht, ih1]
    cases parseFrom false 0 tail <;> rfl

/-- Serialisation goes element by element. -/
theorem serialiseDivs_append (ts us : List (List Char)) :
    serialiseDivs (ts ++ us) = serialiseDivs ts ++ serialiseDivs us := by
  induction ts with
  | nil => rfl
  | cons t ts ih => simp [serialiseDivs, ih]

/-- Appending the `div` of a message without markup to serialised `div`
elements and reading the markup back gives one more `div`. -/
theorem reserialise_append (ts : List (List Char)) (m : String)
    (hts : ∀ t ∈ ts, noCtl t) (hm : textOk m.data = true) :
    reserialise (String.mk (serialiseDivs ts) ++ ("<div>" ++ m ++ "</div>"))
      = some (String.mk (serialiseDivs (ts ++ [m.data]))) := by
  have e : (String.mk (serialiseDivs ts) ++ ("<div>" ++ m ++ "</div>")).data
      = serialiseDivs ts ++
          ('<' :: 'd' :: 'i' :: 'v' :: '>' ::
            (m.data ++ ('<' :: '/' :: 'd' :: 'i' :: 'v' :: '>' :: []))) := by
    simp [String.data_append]
  unfold reserialise
  rw [e, parseFrom_serialised _ ts hts, parseFrom_open, parseFrom_text _ m.data hm]
  simp [parseFrom]

/-! ### The operations -/

/-- C5: `sendMessage(m)` issues exactly one request, a POST to
`/api/webchat/messages` with content type `application/json` whose body is the
JSON text of the object with `user` the session username followed by `message`
the argument; for `alice` and `hi` that text is `{"user":"alice","message":"hi"}`;
`username`, the DOM and every other part of the state are left as they were. -/
theorem sendMessage_posts_once (s : State) (m : String) :
    (sendMessage m s).requests = s.requests ++
        [{ method := "POST"
           url := "/api/webchat/messages"
           headers := [("Content-Type", "application/json")]
           body := some (stringify [("user", s.username), ("message", m)])
           time := s.now }] ∧
      (sendMessage m s).username = s.username ∧
      (sendMessage m s).dom = s.dom ∧
      (sendMessage m s).beacons = s.beacons ∧
      (sendMessage m s).alerts = s.alerts ∧
      (sendMessage m s).timers = s.timers ∧
      stringify [("user", "alice"), ("message", "hi")]
        = "\x7b\"user\":\"alice\",\"message\":\"hi\"\x7d" := by
  refine ⟨rfl, rfl, rfl, rfl, rfl, rfl, ?_⟩
  decide

/-- C10: the submit listener of `chatForm` always suppresses the default
submission; with an empty message field it leaves the state as it is (no
request), and with a non-empty value `v` it is one call `sendMessage(v)`, that
is one POST carrying `v`, followed by emptying the field. -/
theorem chatFormSubmit_sends_nonempty (e : SubmitEvent) (s : State) :
    (chatFormSubmit e s).1.defaultPrevented = true ∧
      (chatFormSubmit e s).2 =
        (if s.dom.messageValue = "" then s
         else { sendMessage s.dom.messageValue s with
                dom := { s.dom with messageValue := "" } }) ∧
      (chatFormSubmit e s).2.requests =
        (if s.dom.messageValue = "" then s.requests
         else s.requests ++
           [{ method := "POST"
              url := "/api/webchat/messages"
              headers := [("Content-Type", "application/json")]
              body := some (stringify [("user", s.username), ("message", s.dom.messageValue)])
              time := s.now }]) := by
  unfold chatFormSubmit
  by_cases h : s.dom.messageValue = ""
  · simp [h]
  · simp [h, sendMessage]

/-- A login chain that settles on the truthy branch runs `loginSuccess`. -/
theorem loginSettle_of_valid (o : FetchOutcome) (s : State) (h : o.loginValid = true) :
    loginSettle o s = loginSuccess s := by
  cases o with
  | rejected => simp [FetchOutcome.loginValid] at h
  | unparsable => simp [FetchOutcome.loginValid] at h
  | body data =>
    simp only [FetchOutcome.loginValid] at h
    simp only [loginSettle, loginThen]
    cases hv : getValid data with
    | error e => simp [hv] at h
    | ok valid =>
      simp only [hv] at h
      simp [h]

/-- A login chain that settles otherwise does nothing but show one alert. -/
theorem loginSettle_of_not_valid (o : FetchOutcome) (s : State) (h : o.loginValid = false) :
    ∃ text, loginSettle o s = alert text s := by
  cases o with
  | rejected => exact ⟨_, rfl⟩
  | unparsable => exact ⟨_, rfl⟩
  | body data =>
    simp only [FetchOutcome.loginValid] at h
    simp only [loginSettle, loginThen]
    cases hv : getValid data with
    | error e => exact ⟨_, rfl⟩
    | ok valid =>
      simp only [hv] at h
      exact ⟨"Invalid username or password. Please try again.", by simp [h]⟩

/-- A settled message fetch changes nothing but the page elements. -/
theorem fetchMessagesSettle_frame (layout : String → Nat) (o : FetchOutcome) (s : State) :
    ∃ d : Dom, fetchMessagesSettle layout o s = { s with dom := d } := by
  cases o with
  | rejected => exact ⟨s.dom, rfl⟩
  | unparsable => exact ⟨s.dom, rfl⟩
  | body data =>
    cases data with
    | arr items =>
      simp only [fetchMessagesSettle, fetchMessagesThen]
      rcases h : forEachMessage layout items (s.dom.setChatMessagesInnerHTML layout (some ""))
        with ⟨d, _ | e⟩
      · exact ⟨_, rfl⟩
      · exact ⟨_, rfl⟩
    | null => exact ⟨_, rfl⟩
    | bool b => exact ⟨_, rfl⟩
    | num n => exact ⟨_, rfl⟩
    | str t => exact ⟨_, rfl⟩
    | obj fields => exact ⟨_, rfl⟩

/-- Only `login` writes `username`: without a call of it the variable keeps
its value. -/
theorem run_username_of_no_login (layout : String → Nat) (evs : List Event) :
    ∀ s : State, (∀ e ∈ evs, Event.isLoginCall e = false) →
      (run layout s evs).username = s.username := by
  induction evs with
  | nil => intro s _; rfl
  | cons e evs ih =>
    intro s h
    have he : Event.isLoginCall e = false := h e (List.mem_cons_self _ _)
    have hrest : ∀ x ∈ evs, Event.isLoginCall x = false :=
      fun x hx => h x (List.mem_cons_of_mem _ hx)
    have hstep : (step layout s e).username = s.username := by
      cases e with
      | loginCall => simp [Event.isLoginCall] at he
      | loginResponse o =>
        simp only [step]
        split
        · rfl
        · cases hv : o.loginValid with
          | true => rw [loginSettle_of_valid o _ hv]; rfl
          | false =>
            obtain ⟨text, ht⟩ := loginSettle_of_not_valid o { s with pendingLogins := s.pendingLogins - 1 } hv
            rw [ht]; rfl
      | fetchResponse o =>
        simp only [step]
        split
        · rfl
        · obtain ⟨d, hd⟩ :=
            fetchMessagesSettle_frame layout o { s with pendingFetches := s.pendingFetches - 1 }
          rw [hd]
      | relayout h sc => rfl
      | submit =>
        simp only [step, chatFormSubmit]
        split <;> rfl
      | unload =>
        simp only [step, beforeunload]
        split <;> rfl
      | tick =>
        simp only [step, tick, fireTimers]
        generalize ({ s with now := s.now + 1 } : State).timers = tms
        have key : ∀ (tms : List Timer) (a : State),
            (tms.foldl (fun acc tm => if tm.due acc.now then tm.callback.run acc else acc) a).username
              = a.username := by
          intro tms
          induction tms with
          | nil => intro a; rfl
          | cons tm tms ih2 =>
            intro a
            simp only [List.foldl_cons]
            rw [ih2]
            split
            · cases tm.callback; rfl
            · rfl
        rw [key]
      | typeUsername v => rfl
      | typePassword v => rfl
      | typeMessage v => rfl
    show (run layout (step layout s e) evs).username = s.username
    rw [ih (step layout s e) hrest, hstep]

/-- C7: on `beforeunload`, a non-empty `username` makes exactly one beacon, to
`/api/webchat/logout` with the JSON text of the object with `username` (for
`bob`, `{"username":"bob"}`); an empty `username` makes none, and `username`
is empty as long as `login()` was never invoked since page load.  No request
is issued and nothing but the beacon log changes. -/
theorem beforeunload_beacon (layout : String → Nat) (s : State) (evs : List Event)
    (hevs : ∀ e ∈ evs, Event.isLoginCall e = false) :
    beforeunload s =
        (if s.username = "" then s
         else { s with
                beacons := s.beacons ++
                  [{ url := "/api/webchat/logout"
                     data := stringify [("username", s.username)] }] }) ∧
      stringify [("username", "bob")] = "\x7b\"username\":\"bob\"\x7d" ∧
      (beforeunload s).requests = s.requests ∧
      (beforeunload s).username = s.username ∧
      (beforeunload s).dom = s.dom ∧
      (beforeunload s).alerts = s.alerts ∧
      (beforeunload s).timers = s.timers ∧
      (run layout pageLoad evs).username = "" ∧
      beforeunload (run layout pageLoad evs) = run layout pageLoad evs := by
  have hu : (run layout pageLoad evs).username = "" :=
    run_username_of_no_login layout evs pageLoad hevs
  refine ⟨?_, by decide, ?_, ?_, ?_, ?_, ?_, hu, ?_⟩
  · unfold beforeunload
    by_cases h : s.username = "" <;> simp [h]
  · unfold beforeunload; split <;> rfl
  · unfold beforeunload; split <;> rfl
  · unfold beforeunload; split <;> rfl
  · unfold beforeunload; split <;> rfl
  · unfold beforeunload; split <;> rfl
  · unfold beforeunload
    simp [hu]

/-- Witness of C7: a page on which the user typed, submitted and waited,
without ever logging in. -/
theorem beforeunload_beacon_witness :
    stringify [("username", "bob")] = "\x7b\"username\":\"bob\"\x7d" ∧
      beforeunload
          (run String.length pageLoad [.typeUsername "bob", .typeMessage "hi", .submit, .tick])
        = run String.length pageLoad [.typeUsername "bob", .typeMessage "hi", .submit, .tick] :=
  have h := beforeunload_beacon String.length { pageLoad with username := "bob" }
    [.typeUsername "bob", .typeMessage "hi", .submit, .tick] (by decide)
  ⟨h.2.1, h.2.2.2.2.2.2.2.2⟩

/-- The message fetches among the requests appended to those of `s0`. -/
theorem fetchTimesSince_append (s0 s : State) (extra : List Request)
    (h : s.requests = s0.requests ++ extra) :
    fetchTimesSince s0 s = (extra.filter isMessageFetch).map Request.time := by
  unfold fetchTimesSince
  rw [h, List.drop_left]

/-- The login request is not a message fetch. -/
theorem isMessageFetch_loginRequest (s : State) : isMessageFetch (loginRequest s) = false := by
  simp [isMessageFetch, loginRequest]

/-- C4: when the login request is rejected in transport, `login()` shows
exactly one alert, `Error connecting to server.` (which is not the
invalid-credentials text), leaves every element as it was, issues no request
but the login POST, hence no message fetch, and starts no timer. -/
theorem login_transport_failure (s : State) :
    (loginSettle .rejected (login s)).alerts = s.alerts ++ ["Error connecting to server."] ∧
      "Error connecting to server." ≠ "Invalid username or password. Please try again." ∧
      (loginSettle .rejected (login s)).dom = s.dom ∧
      (loginSettle .rejected (login s)).requests = s.requests ++ [loginRequest s] ∧
      fetchTimesSince s (loginSettle .rejected (login s)) = [] ∧
      (loginSettle .rejected (login s)).timers = s.timers := by
  refine ⟨rfl, by decide, rfl, rfl, ?_, rfl⟩
  rw [fetchTimesSince_append s _ [loginRequest s] rfl]
  simp [isMessageFetch_loginRequest]

/-- C3: when the parsed login response has `valid` equal to `false`, `login()`
shows exactly one alert, `Invalid username or password. Please try again.`,
leaves every element as it was, issues no request but the login POST, hence no
message fetch, and starts no timer; a further `login()` issues a new login
POST. -/
theorem login_invalid_credentials (s : State) (fields : List (String × JSValue))
    (h : fields.lookup "valid" = some (.bool false)) :
    (loginSettle (.body (.obj fields)) (login s)).alerts
        = s.alerts ++ ["Invalid username or password. Please try again."] ∧
      (loginSettle (.body (.obj fields)) (login s)).dom = s.dom ∧
      (loginSettle (.body (.obj fields)) (login s)).requests = s.requests ++ [loginRequest s] ∧
      fetchTimesSince s (loginSettle (.body (.obj fields)) (login s)) = [] ∧
      (loginSettle (.body (.obj fields)) (login s)).timers = s.timers ∧
      (login (loginSettle (.body (.obj fields)) (login s))).requests
        = s.requests ++ [loginRequest s, loginRequest s] := by
  have hs : loginSettle (.body (.obj fields)) (login s)
      = alert "Invalid username or password. Please try again." (login s) := by
    simp [loginSettle, loginThen, getValid, h, truthy]
  rw [hs]
  refine ⟨rfl, rfl, rfl, ?_, rfl, ?_⟩
  · rw [fetchTimesSince_append s _ [loginRequest s] rfl]
    simp [isMessageFetch_loginRequest]
  · simp [login, alert, loginRequest]

/-- Witness of C3: the user `mallory` is turned down on a fresh page. -/
theorem login_invalid_credentials_witness :
    (loginSettle (.body (.obj [("valid", .bool false)]))
        (login (withCredentials "mallory" "guess" pageLoad))).alerts
      = ["Invalid username or password. Please try again."] :=
  (login_invalid_credentials (withCredentials "mallory" "guess" pageLoad)
    [("valid", .bool false)] rfl).1

/-- C2: for every username and password typed into the fields, when `login()`
is called and the parsed response has `valid` equal to `true`, the overlay
gets display `none`, the chat section display `block`, no alert is shown (on
a fresh page the alert log is empty), and exactly one message fetch, a GET of
`/api/webchat/messages`, has been issued by the time the response is handled. -/
theorem login_valid_shows_chat (s : State) (u p : String) (fields : List (String × JSValue))
    (h : fields.lookup "valid" = some (.bool true)) :
    (loginSettle (.body (.obj fields)) (login (withCredentials u p s))).dom.loginOverlayDisplay
        = "none" ∧
      (loginSettle (.body (.obj fields)) (login (withCredentials u p s))).dom.chatSectionDisplay
        = "block" ∧
      (loginSettle (.body (.obj fields)) (login (withCredentials u p s))).alerts = s.alerts ∧
      (loginSettle (.body (.obj fields)) (login (withCredentials u p pageLoad))).alerts = [] ∧
      (loginSettle (.body (.obj fields)) (login (withCredentials u p s))).requests
        = s.requests ++
            [loginRequest (withCredentials u p s),
             { method := "GET", url := "/api/webchat/messages", headers := [], body := none,
               time := s.now }] ∧
      fetchTimesSince s (loginSettle (.body (.obj fields)) (login (withCredentials u p s)))
        = [s.now] := by
  have hs : ∀ s0 : State, loginSettle (.body (.obj fields)) s0 = loginSuccess s0 := by
    intro s0
    simp [loginSettle, loginThen, getValid, h, truthy]
  rw [hs, hs]
  refine ⟨rfl, rfl, rfl, rfl, ?_, ?_⟩
  · simp [loginSuccess, fetchMessages, setInterval, login, withCredentials, loginRequest]
  · rw [fetchTimesSince_append s _
      [loginRequest (withCredentials u p s),
       { method := "GET", url := "/api/webchat/messages", headers := [], body := none,
         time := s.now }]
      (by simp [loginSuccess, fetchMessages, setInterval, login, withCredentials, loginRequest])]
    simp [isMessageFetch, loginRequest]

/-- Witness of C2: `alice` logs in on a fresh page. -/
theorem login_valid_shows_chat_witness :
    (loginSettle (.body (.obj [("valid", .bool true)]))
        (login (withCredentials "alice" "secret" pageLoad))).dom.loginOverlayDisplay = "none" ∧
      fetchTimesSince pageLoad
          (loginSettle (.body (.obj [("valid", .bool true)]))
            (login (withCredentials "alice" "secret" pageLoad)))
        = [pageLoad.now] :=
  have h := login_valid_shows_chat pageLoad "alice" "secret" [("valid", .bool true)] rfl
  ⟨h.1, h.2.2.2.2.2⟩

/-- Concatenation of a list of strings, one element at a time. -/
theorem join_cons_eq (a : String) (l : List String) :
    String.join (a :: l) = a ++ String.join l := by
  apply String.ext
  simp [String.data_join]

/-- The serialisation of `div` elements holding the messages, as a
concatenation of strings. -/
theorem serialiseDivs_eq_join (msgs : List String) :
    String.mk (serialiseDivs (msgs.map String.data))
      = String.join (msgs.map fun m => "<div>" ++ escapeHtml m ++ "</div>") := by
  induction msgs with
  | nil => rfl
  | cons m msgs ih =>
    rw [List.map_cons, List.map_cons, join_cons_eq, ← ih]
    apply String.ext
    simp [serialiseDivs, escapeHtml, String.data_append]

/-- A message without special characters is read as one text and is
serialised as itself. -/
theorem plainText_spec (m : String) (h : plainText m = true) :
    textOk m.data = true ∧ escapeHtml m = m := by
  have key : ∀ l : List Char,
      (l.all fun c =>
        c != '&' && c != '<' && c != '>' && c != Char.ofNat 160 && c != Char.ofNat 0
          && c != Char.ofNat 13) = true →
      textOk l = true ∧ l.flatMap escapeHtmlChar = l := by
    intro l
    induction l with
    | nil => intro _; exact ⟨rfl, rfl⟩
    | cons c l ih =>
      intro hl
      simp only [List.all_cons, Bool.and_eq_true, bne_iff_ne, ne_eq] at hl
      obtain ⟨⟨⟨⟨⟨⟨h1, h2⟩, h3⟩, h4⟩, h5⟩, h6⟩, hrest⟩ := hl
      obtain ⟨i1, i2⟩ := ih hrest
      constructor
      · simp [textOk, h1, h2, h5, h6, i1]
      · rw [List.flatMap_cons, i2]
        simp [escapeHtmlChar, h1, h2, h3, h4]
  obtain ⟨k1, k2⟩ := key m.data h
  refine ⟨k1, ?_⟩
  apply String.ext
  simp [escapeHtml, k2]

/-- The `forEach` loop of `fetchMessages` on messages read as text adds one
`div` per message, in order, to the `div` elements the container holds. -/
theorem forEachMessage_texts (layout : String → Nat) (msgs : List String)
    (hmsgs : ∀ m ∈ msgs, textOk m.data = true) :
    ∀ (d : Dom) (ts : List (List Char)), (∀ t ∈ ts, noCtl t) →
      d.chatMessagesInnerHTML = some (String.mk (serialiseDivs ts)) →
      ∃ top, forEachMessage layout (msgs.map JSValue.str) d =
        ({ d with
           chatMessagesInnerHTML := some (String.mk (serialiseDivs (ts ++ msgs.map String.data)))
           chatMessagesScrollTop := top }, none) := by
  induction msgs with
  | nil =>
    intro d ts _ hd
    refine ⟨d.chatMessagesScrollTop, ?_⟩
    simp only [List.map_nil, forEachMessage, List.append_nil, ← hd]
  | cons m msgs ih =>
    intro d ts hts hd
    have hm : textOk m.data = true := hmsgs m (List.mem_cons_self _ _)
    have hrest : ∀ x ∈ msgs, textOk x.data = true :=
      fun x hx => hmsgs x (List.mem_cons_of_mem _ hx)
    have hts1 : ∀ t ∈ ts ++ [m.data], noCtl t := by
      intro t ht
      rcases List.mem_append.mp ht with ht | ht
      · exact hts t ht
      · rw [List.mem_singleton.mp ht]; exact textOk_noCtl _ hm
    obtain ⟨top, htop⟩ := ih hrest
      (d.setChatMessagesInnerHTML layout
        (d.chatMessagesInnerHTML.map fun old => old ++ ("<div>" ++ m ++ "</div>")))
      (ts ++ [m.data]) hts1
      (by simp [Dom.setChatMessagesInnerHTML, Dom.clampScrollTop, hd,
            reserialise_append ts m hts hm])
    refine ⟨top, ?_⟩
    simp only [List.map_cons, forEachMessage, appendMessage, JSValue.toStr]
    rw [htop]
    simp [Dom.setChatMessagesInnerHTML, Dom.clampScrollTop]

/-- After `fetchMessages()` has completed on an array of messages read as
text, the container holds one `div` per message with the message escaped, and
is scrolled to its largest offset; nothing else on the page changes. -/
theorem fetchMessages_renders_text (layout : String → Nat) (s : State) (msgs : List String)
    (hmsgs : ∀ m ∈ msgs, textOk m.data = true) :
    (fetchMessagesSettle layout (.body (.arr (msgs.map .str))) (fetchMessages s)).dom
      = { s.dom with
          chatMessagesInnerHTML :=
            some (String.join (msgs.map fun m => "<div>" ++ escapeHtml m ++ "</div>"))
          chatMessagesScrollTop :=
            some (if s.dom.chatMessagesScrollable then
                max (layout (String.join (msgs.map fun m => "<div>" ++ escapeHtml m ++ "</div>")))
                  s.dom.chatMessagesClientHeight - s.dom.chatMessagesClientHeight
              else 0) } := by
  obtain ⟨top, htop⟩ := forEachMessage_texts layout msgs hmsgs
    ((fetchMessages s).dom.setChatMessagesInnerHTML layout (some "")) []
    (fun t ht => by cases ht) rfl
  simp only [fetchMessagesSettle, fetchMessagesThen, htop, List.nil_append, serialiseDivs_eq_join]
  simp only [Dom.setChatMessagesScrollTop, Dom.chatMessagesMaxScrollTop,
    Dom.chatMessagesScrollHeight, Dom.setChatMessagesInnerHTML, Dom.clampScrollTop, fetchMessages]
  by_cases hsc : s.dom.chatMessagesScrollable = true
  · simp [hsc]
  · simp [hsc]

/-- C6, as stated, fails: for the one message `Tom & Jerry` the markup read
from the container is `<div>Tom &amp; Jerry</div>`, not the message verbatim,
because `innerHTML` is parsed when assigned and serialised when read (and
`a > b` reads back as `a &gt; b`); and in
a scroll container 10 pixels high whose content is 16 pixels high `scrollTop`
ends at 6, the largest offset, not at `scrollHeight`. -/
theorem fetchMessages_markup_not_verbatim :
    (fetchMessagesSettle String.length (.body (.arr [.str "Tom & Jerry"]))
        (fetchMessages pageLoad)).dom.chatMessagesInnerHTML
        = some "<div>Tom &amp; Jerry</div>" ∧
      (fetchMessagesSettle String.length (.body (.arr [.str "a > b"]))
        (fetchMessages pageLoad)).dom.chatMessagesInnerHTML
        = some "<div>a &gt; b</div>" ∧
      (fetchMessagesSettle String.length (.body (.arr [.str "hello"]))
        (fetchMessages (step String.length pageLoad (.relayout 10 true)))).dom.chatMessagesScrollTop
        = some 6 ∧
      Dom.chatMessagesScrollHeight String.length
        (fetchMessagesSettle String.length (.body (.arr [.str "hello"]))
          (fetchMessages (step String.length pageLoad (.relayout 10 true)))).dom
        = some 16 ∧
      ¬ (∀ (layout : String → Nat) (s : State) (msgs : List String),
          (fetchMessagesSettle layout (.body (.arr (msgs.map .str)))
              (fetchMessages s)).dom.chatMessagesInnerHTML
            = some (String.join (msgs.map fun m => "<div>" ++ m ++ "</div>")) ∧
          (fetchMessagesSettle layout (.body (.arr (msgs.map .str)))
              (fetchMessages s)).dom.chatMessagesScrollTop
            = Dom.chatMessagesScrollHeight layout
                (fetchMessagesSettle layout (.body (.arr (msgs.map .str))) (fetchMessages s)).dom) := by
  have h1 : (fetchMessagesSettle String.length (.body (.arr [.str "Tom & Jerry"]))
      (fetchMessages pageLoad)).dom.chatMessagesInnerHTML
      = some "<div>Tom &amp; Jerry</div>" := by decide
  refine ⟨h1, by decide, by decide, by decide, ?_⟩
  intro h
  have h2 := (h String.length pageLoad ["Tom & Jerry"]).1
  rw [show (["Tom & Jerry"] : List String).map JSValue.str = [.str "Tom & Jerry"] from rfl, h1] at h2
  revert h2
  decide

/-- C6, amended: for every array of strings none of which contains `&`, `<`,
`>`, U+00A0, U+0000 or a carriage return, and whatever the container held
before, after `fetchMessages()` has completed the markup read from the
container is exactly the concatenation of `<div>m</div>` over the messages in
array order, each message verbatim and nothing of the previous content kept,
and `scrollTop` is at the largest scroll offset of the container
(`scrollHeight - clientHeight` in a scroll container); `["hello","world"]`
gives the two divs `hello` then `world`, and the empty array gives an empty
container.  Nothing else on the page changes. -/
theorem fetchMessages_renders_plain (layout : String → Nat) (s : State) (msgs : List String)
    (hplain : ∀ m ∈ msgs, plainText m = true) :
    (fetchMessagesSettle layout (.body (.arr (msgs.map .str))) (fetchMessages s)).dom.chatMessagesInnerHTML
        = some (String.join (msgs.map fun m => "<div>" ++ m ++ "</div>")) ∧
      (fetchMessagesSettle layout (.body (.arr (msgs.map .str))) (fetchMessages s)).dom.chatMessagesScrollTop
        = Dom.chatMessagesMaxScrollTop layout
            (fetchMessagesSettle layout (.body (.arr (msgs.map .str))) (fetchMessages s)).dom ∧
      (fetchMessagesSettle layout (.body (.arr (msgs.map .str))) (fetchMessages s)).dom
        = { s.dom with
            chatMessagesInnerHTML := some (String.join (msgs.map fun m => "<div>" ++ m ++ "</div>"))
            chatMessagesScrollTop :=
              some (if s.dom.chatMessagesScrollable then
                  max (layout (String.join (msgs.map fun m => "<div>" ++ m ++ "</div>")))
                    s.dom.chatMessagesClientHeight - s.dom.chatMessagesClientHeight
                else 0) } ∧
      (fetchMessagesSettle layout (.body (.arr ([("hello" : String), "world"].map .str)))
          (fetchMessages s)).dom.chatMessagesInnerHTML
        = some "<div>hello</div><div>world</div>" ∧
      (fetchMessagesSettle layout (.body (.arr (([] : List String).map .str)))
          (fetchMessages s)).dom.chatMessagesInnerHTML
        = some "" := by
  have hesc : (msgs.map fun m => "<div>" ++ escapeHtml m ++ "</div>")
      = msgs.map fun m => "<div>" ++ m ++ "</div>" := by
    apply List.map_congr_left
    intro m hm
    rw [(plainText_spec m (hplain m hm)).2]
  have key := fetchMessages_renders_text layout s msgs
    (fun m hm => (plainText_spec m (hplain m hm)).1)
  rw [hesc] at key
  have hw := fetchMessages_renders_text layout s ["hello", "world"] (by decide)
  have he := fetchMessages_renders_text layout s [] (by decide)
  refine ⟨by rw [key], ?_, key, ?_, ?_⟩
  · rw [key]
    simp [Dom.chatMessagesMaxScrollTop, Dom.chatMessagesScrollHeight]
  · rw [hw]
    show some (String.join (["hello", "world"].map fun m => "<div>" ++ escapeHtml m ++ "</div>")) = _
    decide
  · rw [he]
    rfl

/-- Witness of C6: the server answers with `hello` and `world` on a fresh
page. -/
theorem fetchMessages_renders_plain_witness :
    (fetchMessagesSettle String.length (.body (.arr (["hello", "world"].map .str)))
        (fetchMessages pageLoad)).dom.chatMessagesInnerHTML
      = some (String.join (["hello", "world"].map fun m => "<div>" ++ m ++ "</div>")) :=
  (fetchMessages_renders_plain String.length pageLoad ["hello", "world"] (by decide)).1

/-- C9, as stated, fails: a response whose `valid` is the number 1 takes the
success path although the field is not the boolean `true`. -/
theorem login_valid_not_strict :
    ¬ (∀ (s : State) (data : JSValue),
        SuccessPath s (loginSettle (.body data) s) ↔ getValid data = .ok (some (.bool true))) := by
  intro h
  have h1 := (h pageLoad (.obj [("valid", .num 1)])).mp ⟨rfl, rfl, rfl⟩
  simp [getValid] at h1

/-- C9, amended: `login()` takes the success path (overlay hidden, chat section
shown, polling started) if and only if the `valid` field of the parsed body is
truthy.  The boolean `true`, a non-zero number, a non-empty string and an
object are truthy; `false`, a missing field, `null`, zero, the empty string
and a body that is not an object are not. -/
theorem login_success_iff_truthy (s : State) (data : JSValue) :
    (SuccessPath s (loginSettle (.body data) s) ↔ (FetchOutcome.body data).loginValid = true) ∧
      (FetchOutcome.body (.obj [("valid", .bool true)])).loginValid = true ∧
      (FetchOutcome.body (.obj [("valid", .num 1)])).loginValid = true ∧
      (FetchOutcome.body (.obj [("valid", .str "no")])).loginValid = true ∧
      (FetchOutcome.body (.obj [("valid", .obj [])])).loginValid = true ∧
      (FetchOutcome.body (.obj [("valid", .bool false)])).loginValid = false ∧
      (FetchOutcome.body (.obj [])).loginValid = false ∧
      (FetchOutcome.body (.obj [("valid", .null)])).loginValid = false ∧
      (FetchOutcome.body (.obj [("valid", .num 0)])).loginValid = false ∧
      (FetchOutcome.body (.obj [("valid", .str "")])).loginValid = false ∧
      (FetchOutcome.body (.str "true")).loginValid = false ∧
      (FetchOutcome.body .null).loginValid = false := by
  refine ⟨⟨?_, ?_⟩, rfl, rfl, rfl, rfl, rfl, rfl, rfl, rfl, rfl, rfl, rfl⟩
  · intro hp
    cases hv : (FetchOutcome.body data).loginValid with
    | true => rfl
    | false =>
      obtain ⟨text, ht⟩ := loginSettle_of_not_valid (.body data) s hv
      rw [ht] at hp
      have h3 := hp.2.2
      simp [alert] at h3
  · intro hv
    rw [loginSettle_of_valid _ s hv]
    exact ⟨rfl, rfl, rfl⟩

/-- C1, the code at the failing input: on a fresh page `mallory` types a wrong
password and the server turns the login down.  No login has succeeded, the
invalid-credentials alert is shown, yet `username` is `mallory`, and the
unload handler then sends a logout beacon for that name. -/
theorem username_set_by_rejected_login :
    (run String.length pageLoad
        [.typeUsername "mallory", .typePassword "guess", .loginCall,
         .loginResponse (.body (.obj [("valid", .bool false)]))]).username = "mallory" ∧
      List.any
          [.typeUsername "mallory", .typePassword "guess", .loginCall,
           .loginResponse (.body (.obj [("valid", .bool false)]))]
          Event.isLoginSuccess = false ∧
      (run String.length pageLoad
        [.typeUsername "mallory", .typePassword "guess", .loginCall,
         .loginResponse (.body (.obj [("valid", .bool false)]))]).alerts
        = ["Invalid username or password. Please try again."] ∧
      (run String.length pageLoad
        [.typeUsername "mallory", .typePassword "guess", .loginCall,
         .loginResponse (.body (.obj [("valid", .bool false)])), .unload]).beacons
        = [{ url := "/api/webchat/logout", data := "\x7b\"username\":\"mallory\"\x7d" }] ∧
      (run String.length pageLoad
        [.typeUsername "mallory", .typePassword "guess", .loginCall,
         .loginResponse .rejected]).username = "mallory" := by
  refine ⟨rfl, rfl, rfl, ?_, rfl⟩
  decide

/-! ### Polling -/

/-- Firing timers changes neither the clock nor the timers, and every request
it issues is a message fetch at the current time. -/
theorem fireTimers_frame (tms : List Timer) :
    ∀ a : State,
      (fireTimers tms a).timers = a.timers ∧ (fireTimers tms a).now = a.now := by
  induction tms with
  | nil => intro a; exact ⟨rfl, rfl⟩
  | cons tm tms ih =>
    intro a
    simp only [fireTimers, List.foldl_cons] at ih ⊢
    by_cases hd : tm.due a.now = true
    · simp only [hd, if_true]
      obtain ⟨h1, h2⟩ := ih (tm.callback.run a)
      rw [h1, h2]
      cases tm.callback
      exact ⟨rfl, rfl⟩
    · simp only [hd]
      exact ih a

/-- No turn of the event loop removes a timer. -/
theorem step_timers_prefix (layout : String → Nat) (s : State) (e : Event) :
    s.timers <+: (step layout s e).timers := by
  cases e with
  | typeUsername v => exact List.prefix_refl _
  | typePassword v => exact List.prefix_refl _
  | typeMessage v => exact List.prefix_refl _
  | loginCall => exact List.prefix_refl _
  | loginResponse o =>
    simp only [step]
    split
    · exact List.prefix_refl _
    · cases hv : o.loginValid with
      | true =>
        rw [loginSettle_of_valid o _ hv]
        exact ⟨[pollTimer s.now], rfl⟩
      | false =>
        obtain ⟨text, ht⟩ :=
          loginSettle_of_not_valid o { s with pendingLogins := s.pendingLogins - 1 } hv
        rw [ht]
        exact List.prefix_refl _
  | submit =>
    simp only [step, chatFormSubmit]
    split <;> exact List.prefix_refl _
  | fetchResponse o =>
    simp only [step]
    split
    · exact List.prefix_refl _
    · obtain ⟨d, hd⟩ :=
        fetchMessagesSettle_frame layout o { s with pendingFetches := s.pendingFetches - 1 }
      rw [hd]
  | relayout h sc => exact List.prefix_refl _
  | unload =>
    simp only [step, beforeunload]
    split <;> exact List.prefix_refl _
  | tick =>
    simp only [step, tick]
    rw [(fireTimers_frame _ _).1]

/-- Apart from the clock and a successful login, a turn of the event loop
keeps the clock and the timers and issues no message fetch. -/
theorem step_frame (layout : String → Nat) (s : State) (e : Event)
    (hs : Event.isLoginSuccess e = false) (ht : e ≠ Event.tick) :
    (step layout s e).timers = s.timers ∧ (step layout s e).now = s.now ∧
      ∃ extra, (step layout s e).requests = s.requests ++ extra ∧
        extra.filter isMessageFetch = [] := by
  cases e with
  | typeUsername v => exact ⟨rfl, rfl, [], by simp [step], rfl⟩
  | typePassword v => exact ⟨rfl, rfl, [], by simp [step], rfl⟩
  | typeMessage v => exact ⟨rfl, rfl, [], by simp [step], rfl⟩
  | loginCall =>
    exact ⟨rfl, rfl, [loginRequest s], rfl, by simp [isMessageFetch_loginRequest]⟩
  | loginResponse o =>
    simp only [step]
    split
    · exact ⟨rfl, rfl, [], by simp, rfl⟩
    · obtain ⟨text, hx⟩ :=
        loginSettle_of_not_valid o { s with pendingLogins := s.pendingLogins - 1 } hs
      rw [hx]
      exact ⟨rfl, rfl, [], by simp [alert], rfl⟩
  | submit =>
    simp only [step, chatFormSubmit]
    split
    · exact ⟨rfl, rfl, _, rfl, by simp [isMessageFetch]⟩
    · exact ⟨rfl, rfl, [], by simp, rfl⟩
  | fetchResponse o =>
    simp only [step]
    split
    · exact ⟨rfl, rfl, [], by simp, rfl⟩
    · obtain ⟨d, hd⟩ :=
        fetchMessagesSettle_frame layout o { s with pendingFetches := s.pendingFetches - 1 }
      rw [hd]
      exact ⟨rfl, rfl, [], by simp, rfl⟩
  | relayout h sc => exact ⟨rfl, rfl, [], by simp [step], rfl⟩
  | unload =>
    simp only [step, beforeunload]
    split
    · exact ⟨rfl, rfl, [], by simp, rfl⟩
    · exact ⟨rfl, rfl, [], by simp, rfl⟩
  | tick => exact absurd rfl ht

/-- The cadence gains the new time when the clock reaches a multiple of the
period. -/
theorem cadence_succ_due (t n : Nat) (h : t ≤ n) (hd : (n + 1 - t) % 1000 = 0) :
    cadence t (n + 1) = cadence t n ++ [n + 1] := by
  unfold cadence
  have h1 : (n + 1 - t) / 1000 + 1 = ((n - t) / 1000 + 1) + 1 := by omega
  rw [h1, List.range_succ, List.map_append]
  have h2 : t + 1000 * ((n - t) / 1000 + 1) = n + 1 := by omega
  simp [h2]

/-- The cadence is unchanged otherwise. -/
theorem cadence_succ_not_due (t n : Nat) (h : t ≤ n) (hd : (n + 1 - t) % 1000 ≠ 0) :
    cadence t (n + 1) = cadence t n := by
  unfold cadence
  have h1 : (n + 1 - t) / 1000 = (n - t) / 1000 := by omega
  rw [h1]

/-- The clock tick keeps the polling invariant. -/
theorem tick_polling (t : Nat) (base : List Request) (s : State) (h : Polling t base s) :
    Polling t base (tick s) := by
  obtain ⟨htm, hle, extra, hreq, hcad⟩ := h
  by_cases hd : (s.now + 1 - t) % 1000 = 0
  · have hfire : tick s = fetchMessages { s with now := s.now + 1 } := by
      have hlt : t < s.now + 1 := by omega
      simp [tick, fireTimers, htm, pollTimer, Timer.due, Callback.run, hd, hlt]
    rw [hfire]
    refine ⟨htm, by show t ≤ s.now + 1; omega, extra ++
      [{ method := "GET", url := "/api/webchat/messages", headers := [], body := none,
         time := s.now + 1 }], ?_, ?_⟩
    · simp [fetchMessages, hreq]
    · show _ = cadence t (s.now + 1)
      rw [cadence_succ_due t s.now hle hd, List.filter_append, List.map_append, hcad]
      simp [isMessageFetch]
  · have hfire : tick s = { s with now := s.now + 1 } := by
      simp [tick, fireTimers, htm, pollTimer, Timer.due, hd]
    rw [hfire]
    refine ⟨htm, by show t ≤ s.now + 1; omega, extra, hreq, ?_⟩
    show _ = cadence t (s.now + 1)
    rw [cadence_succ_not_due t s.now hle hd, hcad]

/-- Every turn of the event loop but a further successful login keeps the
polling invariant. -/
theorem step_polling (layout : String → Nat) (t : Nat) (base : List Request) (s : State)
    (e : Event) (h : Polling t base s) (he : Event.isLoginSuccess e = false) :
    Polling t base (step layout s e) := by
  by_cases ht : e = Event.tick
  · subst ht
    exact tick_polling t base s h
  · obtain ⟨htm, hle, extra, hreq, hcad⟩ := h
    obtain ⟨f1, f2, more, hmore, hnone⟩ := step_frame layout s e he ht
    refine ⟨by rw [f1, htm], by rw [f2]; exact hle, extra ++ more, ?_, ?_⟩
    · rw [hmore, hreq, List.append_assoc]
    · rw [f2, List.filter_append, hnone, List.append_nil, hcad]

/-- The polling invariant holds along every run without a further successful
login. -/
theorem run_polling (layout : String → Nat) (t : Nat) (base : List Request) (evs : List Event) :
    ∀ s : State, Polling t base s → (∀ e ∈ evs, Event.isLoginSuccess e = false) →
      Polling t base (run layout s evs) := by
  induction evs with
  | nil => intro s h _; exact h
  | cons e evs ih =>
    intro s h hev
    exact ih (step layout s e)
      (step_polling layout t base s e h (hev e (List.mem_cons_self _ _)))
      (fun x hx => hev x (List.mem_cons_of_mem _ hx))

/-- A run of `n` clock ticks advances the clock by `n`. -/
theorem run_ticks_now (layout : String → Nat) (n : Nat) :
    ∀ s : State, (run layout s (List.replicate n Event.tick)).now = s.now + n := by
  induction n with
  | zero => intro s; rfl
  | succ n ih =>
    intro s
    show (run layout (tick s) (List.replicate n Event.tick)).now = s.now + (n + 1)
    rw [ih (tick s)]
    show (fireTimers _ _).now + n = _
    rw [(fireTimers_frame _ _).2]
    show s.now + 1 + n = _
    omega

/-- The success branch of `login` establishes the polling invariant. -/
theorem loginSuccess_polling (s : State) (h : s.timers = []) :
    Polling s.now s.requests (loginSuccess s) := by
  refine ⟨?_, Nat.le_refl _,
    [{ method := "GET", url := "/api/webchat/messages", headers := [], body := none,
       time := s.now }], rfl, ?_⟩
  · simp [loginSuccess, fetchMessages, setInterval, h, pollTimer]
  · show _ = cadence s.now s.now
    simp [isMessageFetch, cadence, List.range_succ]

/-- Once the clock is 2500 ms past `t`, at least two times of the cadence lie
in the window from `t` to `t + 2500`. -/
theorem countIn_cadence (t now : Nat) (h : t + 2500 ≤ now) :
    2 ≤ countIn t (t + 2500) (cadence t now) := by
  unfold cadence countIn
  obtain ⟨m, hm⟩ : ∃ m, (now - t) / 1000 + 1 = 2 + m := ⟨(now - t) / 1000 - 1, by omega⟩
  rw [hm, List.range_add, List.map_append, List.filter_append, List.length_append]
  have : (List.filter (fun x => decide (t ≤ x ∧ x ≤ t + 2500))
      (List.map (fun k => t + 1000 * k) (List.range 2))).length = 2 := by
    simp [List.range_succ]
  omega

/-- C8: after a single successful login whose response is handled at time `t`
in a page without timers, under the fake clock: a message fetch is issued at
`t`; along every later run of the event loop in which no further login
succeeds, the timer made at `t` stays the only one, and the message fetches
issued since the login are exactly those at `t`, `t + 1000`, `t + 2000`, ...
up to the current time; once the clock has passed `t + 2500` at least two of
them lie in the window from `t` to `t + 2500`.  No turn of the event loop
removes a timer. -/
theorem polling_every_second (layout : String → Nat) (s0 : State) (data : JSValue)
    (evs : List Event)
    (hvalid : (FetchOutcome.body data).loginValid = true)
    (h0 : s0.timers = [])
    (hevs : ∀ e ∈ evs, Event.isLoginSuccess e = false) :
    fetchTimesSince s0 (loginSettle (.body data) s0) = [s0.now] ∧
      (run layout (loginSettle (.body data) s0) evs).timers = [pollTimer s0.now] ∧
      s0.now ≤ (run layout (loginSettle (.body data) s0) evs).now ∧
      fetchTimesSince s0 (run layout (loginSettle (.body data) s0) evs)
        = cadence s0.now (run layout (loginSettle (.body data) s0) evs).now ∧
      (s0.now + 2500 ≤ (run layout (loginSettle (.body data) s0) evs).now →
        2 ≤ countIn s0.now (s0.now + 2500)
              (fetchTimesSince s0 (run layout (loginSettle (.body data) s0) evs))) ∧
      (∀ (s : State) (e : Event), s.timers <+: (step layout s e).timers) := by
  rw [loginSettle_of_valid _ s0 hvalid]
  have hinit := loginSuccess_polling s0 h0
  obtain ⟨htm, hle, extra, hreq, hcad⟩ :=
    run_polling layout s0.now s0.requests evs (loginSuccess s0) hinit hevs
  have hsince : fetchTimesSince s0 (run layout (loginSuccess s0) evs)
      = cadence s0.now (run layout (loginSuccess s0) evs).now := by
    rw [fetchTimesSince_append s0 _ extra hreq, hcad]
  refine ⟨?_, htm, hle, hsince, ?_, step_timers_prefix layout⟩
  · obtain ⟨_, _, extra0, hreq0, hcad0⟩ := hinit
    rw [fetchTimesSince_append s0 _ extra0 hreq0, hcad0]
    show cadence s0.now s0.now = _
    simp [cadence, List.range_succ]
  · intro hnow
    rw [hsince]
    exact countIn_cadence _ _ hnow

/-- Witness of C8: `alice` logs in on a fresh page and 2500 ms pass; at least
two message fetches lie in the window. -/
theorem polling_every_second_witness :
    2 ≤ countIn 0 2500
          (fetchTimesSince (login (withCredentials "alice" "secret" pageLoad))
            (run String.length
              (loginSettle (.body (.obj [("valid", .bool true)]))
                (login (withCredentials "alice" "secret" pageLoad)))
              (List.replicate 2500 Event.tick))) :=
  (polling_every_second String.length (login (withCredentials "alice" "secret" pageLoad))
    (.obj [("valid", .bool true)]) (List.replicate 2500 Event.tick)
    rfl rfl (fun e he => by rw [List.eq_of_mem_replicate he]; rfl)).2.2.2.2.1
    (by rw [run_ticks_now]; exact Nat.le_add_left _ _)

end WebChatMessaging
